import Mathlib

/-!
Shallow embedding of the baresip MQTT remote-control module
(src/modules/mqtt/mqtt.c) and theorems about its behaviour.

The embedding models the module's pure decision logic faithfully:

* cJSON values and the accessors the module uses (`cJSON_GetObjectItem`,
  the `valueint` / `valuestring` fields of a parsed item);
* the command enumeration `module_events` pushed on the message queue;
* `translate_errorcode`, `get_event_message`, `mqtt_send_message`,
  `ua_event_handler`, `mqueue_handler`, `mqtt_message_arrived` and
  `module_init`.

External collaborators (the telephony engine, the Paho MQTT transport,
the JSON parser, audio playback) are modelled at the interface boundary:
their observable inputs are parameters (connectivity flag, answer mode,
call counts, operation return codes, the parse result of the payload)
and their invocations are recorded as effect fields (messages handed to
the publisher, play-file requests, queue pushes).  A NULL-pointer
dereference in the C code is modelled as the `none` result of an
`Option`-valued function.
-/

/-- Result of parsing a payload with cJSON: the subset of the cJSON value
tree the module inspects.  `valueint` and `valuestring` mirror the fields
of `struct cJSON` that the module reads. -/
inductive cJSON where
  | jNull
  | jFalse
  | jTrue
  | jNumber (n : Int)
  | jString (s : String)
  | jArray (items : List cJSON)
  | jObject (fields : List (String × cJSON))

/-- First field of an object whose name matches.  cJSON_GetObjectItem
compares names with cJSON_strcasecmp (case-insensitive); every lookup in
this module uses an exact lowercase name ("command", "account"), and the
theorems below apply it only to payload field names given verbatim, so a
case-sensitive find is observationally equivalent at these call sites. -/
def lookupField : List (String × cJSON) → String → Option cJSON
  | [], _ => none
  | (k, v) :: rest, name => if k = name then some v else lookupField rest name

/-- Model of cJSON_GetObjectItem: NULL (here `none`) when the value is not
an object or has no member of that name. -/
def cJSON_GetObjectItem (json : cJSON) (name : String) : Option cJSON :=
  match json with
  | .jObject fields => lookupField fields name
  | _ => none

/-- The `valueint` field of a parsed cJSON item: set for numbers and for
`true` (cJSON stores 1), zero otherwise. -/
def valueint : cJSON → Int
  | .jNumber n => n
  | .jTrue => 1
  | _ => 0

/-- The `valuestring` field of a parsed cJSON item: NULL (`none`) unless
the item is a string. -/
def valuestring : cJSON → Option String
  | .jString s => some s
  | _ => none

/-- The commands of `enum module_events`, together with the `void *data`
argument that accompanies MQ_CONNECT on the queue (an owned string). -/
inductive ModuleEvent where
  | MQ_CONNECT (uri : String)
  | MQ_ANSWER
  | MQ_HANGUP
  | MQ_MUTE
  | MQ_UNMUTE
  | MQ_HOLD
  | MQ_RESUME
  | MQ_CALL_STATUS
  | MQ_REGISTRATION_STATUS
deriving DecidableEq

/-- translate_errorcode from mqtt.c: maps a SIP status code to the tone
file played on call close; NULL (`none`) for 487 (ignored). -/
def translate_errorcode (scode : Nat) : Option String :=
  if scode = 404 then some "notfound.wav"
  else if scode = 486 then some "busy.wav"
  else if scode = 487 then none
  else some "error.wav"

/-- get_event_message from mqtt.c.  The C function strcpy's the fixed
text "\x7b \"event\" : \"answer\", \"success\" : " into a static buffer —
ignoring its `event` argument — and appends "\"true\" \x7d" when
`result` is 0, else "\"false\" \x7d". -/
def get_event_message (event : String) (result : Int) : String :=
  let buf := "\x7b \"event\" : \"answer\", \"success\" : "
  let _ := event
  if result = 0 then buf ++ "\"true\" \x7d" else buf ++ "\"false\" \x7d"

/-- The only string get_event_message produces for a zero (success)
result code. -/
def success_true_message : String :=
  "\x7b \"event\" : \"answer\", \"success\" : \"true\" \x7d"

/-- The only string get_event_message produces for a nonzero (failure)
result code. -/
def success_false_message : String :=
  "\x7b \"event\" : \"answer\", \"success\" : \"false\" \x7d"

/-- A publication handed to MQTTClient_publishMessage: topic, payload and
the MQTTClient_message fields the module sets. -/
structure Publication where
  topic : String
  payload : String
  payloadlen : Nat
  qos : Nat
  retained : Nat
deriving DecidableEq

/-- mqtt_send_message from mqtt.c.  `connected` is the result of
MQTTClient_isConnected.  When connected the module publishes on
"baresip/write" with payloadlen strlen(msg)+1 (the terminating NUL byte
is included in the payload length), qos 1 and retained 0; otherwise it
logs "connection failed" and drops the message (`none`: no publication,
no buffering). -/
def mqtt_send_message (connected : Bool) (msg : String) : Option Publication :=
  if connected then
    some ⟨"baresip/write", msg, msg.length + 1, 1, 0⟩
  else
    none

/-- The answer modes of a baresip account (enum answermode in baresip.h);
the module only tests for ANSWERMODE_MANUAL. -/
inductive Answermode where
  | ANSWERMODE_MANUAL
  | ANSWERMODE_EARLY
  | ANSWERMODE_AUTO
deriving DecidableEq

/-- A play_file invocation: the tone file name and the repeat argument
(-1 repeats forever; the C code passes -1, 3 or 1). -/
structure PlayReq where
  file : String
  repeats : Int
deriving DecidableEq

/-- The engine-side inputs ua_event_handler reads: the answer mode of the
signalling user-agent's account (account_answermode), the number of calls
on that user-agent (list_count(ua_calls(ua)) — the incoming call itself is
already in this list, so a count above 1 means another call exists), and
the SIP status code of a closed call (call_scode, a uint16_t). -/
structure UaState where
  answermode : Answermode
  callCount : Nat
  scode : Nat
deriving DecidableEq

/-- Observable effects of one ua_event_handler invocation: whether
uag_current_set was called, whether the in-flight alert sound was
dereferenced (stopped), the play_file requests issued in order, and the
strings handed to mqtt_send_message in order. -/
structure UaEffects where
  currentSet : Bool
  stoppedPlay : Bool
  plays : List PlayReq
  sent : List String
deriving DecidableEq

/-- The lifecycle events ua_event_handler distinguishes; OTHER stands for
every ua_event that falls into the default branch. -/
inductive UaEvent where
  | UA_EVENT_CALL_INCOMING
  | UA_EVENT_CALL_RINGING
  | UA_EVENT_CALL_ESTABLISHED
  | UA_EVENT_CALL_CLOSED
  | UA_EVENT_REGISTER_OK
  | UA_EVENT_UNREGISTERING
  | OTHER
deriving DecidableEq

/-- ua_event_handler from mqtt.c, as a function from the event and the
engine-side inputs it reads to its observable effects. -/
def ua_event_handler (ev : UaEvent) (st : UaState) : UaEffects :=
  match ev with
  | .UA_EVENT_CALL_INCOMING =>
    -- uag_current_set(ua); stop ringtones; ring only in manual mode
    if st.answermode = .ANSWERMODE_MANUAL then
      if 1 < st.callCount then
        ⟨true, true, [⟨"callwaiting.wav", 3⟩], []⟩
      else
        ⟨true, true, [⟨"ring.wav", -1⟩], ["\x7b \"status\" : \"calling\" \x7d"]⟩
    else
      ⟨true, true, [], []⟩
  | .UA_EVENT_CALL_RINGING =>
    ⟨false, true, [⟨"ringback.wav", -1⟩], ["\x7b \"status\" : \"ringing\" \x7d"]⟩
  | .UA_EVENT_CALL_ESTABLISHED =>
    ⟨false, true, [], ["\x7b \"status\" : \"connected\" \x7d"]⟩
  | .UA_EVENT_CALL_CLOSED =>
    -- send "closed", stop ringtones, then play the translated error tone once
    ⟨false, true,
     (if st.scode ≠ 0 then
        match translate_errorcode st.scode with
        | some tone => [⟨tone, 1⟩]
        | none => []
      else []),
     ["\x7b \"status\" : \"closed\" \x7d"]⟩
  | .UA_EVENT_REGISTER_OK =>
    ⟨false, false, [], ["\x7b \"status\" : \"registered\" \x7d"]⟩
  | .UA_EVENT_UNREGISTERING =>
    ⟨false, false, [], ["\x7b \"status\" : \"unregistered\" \x7d"]⟩
  | .OTHER =>
    ⟨false, false, [], []⟩

/-- The engine-side inputs mqueue_handler reads: the return codes of
ua_hold_answer and of call_hold (hold and resume directions), whether
ua_call(uag_current()) is non-NULL, and the user-agent list uag_list()
abstracted to each agent's registration flag (list_count is its
length; the code never consults the flags). -/
structure DispatchEnv where
  answerRet : Int
  holdRet : Int
  resumeRet : Int
  hasCall : Bool
  uags : List Bool
deriving DecidableEq

/-- Observable effects of one mqueue_handler invocation: alert-sound
stop, the engine calls issued (answer, hangup, ua_connect target,
audio_mute argument, call_hold argument) and the strings handed to
mqtt_send_message. -/
structure DispatchEffects where
  stoppedPlay : Bool
  didAnswer : Bool
  didHangup : Bool
  uaConnect : Option String
  audioMute : Option Bool
  callHold : Option Bool
  sent : List String
deriving DecidableEq

/-- mqueue_handler from mqtt.c: the per-command dispatch run on the
engine thread, one invocation per dequeued command. -/
def mqueue_handler (id : ModuleEvent) (env : DispatchEnv) : DispatchEffects :=
  match id with
  | .MQ_ANSWER =>
    -- stop ringtones; ret = ua_hold_answer(ua, NULL); publish result
    ⟨true, true, false, none, none, none,
     [get_event_message "answer" env.answerRet]⟩
  | .MQ_HANGUP =>
    -- usleep(10); stop ringtones; ua_hangup; nothing published
    ⟨true, false, true, none, none, none, []⟩
  | .MQ_CONNECT uri =>
    -- ua_connect(uag_current(), ..., uri, ..., VIDMODE_OFF); fire-and-forget
    ⟨false, false, false, some uri, none, none, []⟩
  | .MQ_MUTE =>
    ⟨false, false, false, none, some true, none,
     ["\x7b \"event\" : \"mute\" \x7d"]⟩
  | .MQ_UNMUTE =>
    ⟨false, false, false, none, some false, none,
     ["\x7b \"event\" : \"unmute\" \x7d"]⟩
  | .MQ_HOLD =>
    ⟨false, false, false, none, none, some true,
     [get_event_message "hold" env.holdRet]⟩
  | .MQ_RESUME =>
    ⟨false, false, false, none, none, some false,
     [get_event_message "resume" env.resumeRet]⟩
  | .MQ_CALL_STATUS =>
    -- status = ua_call(uag_current()); result (int)(!status)
    ⟨false, false, false, none, none, none,
     [get_event_message "active_call" (if env.hasCall then 0 else 1)]⟩
  | .MQ_REGISTRATION_STATUS =>
    -- status = list_count(uag_list()); result !status
    ⟨false, false, false, none, none, none,
     [get_event_message "registered" (if env.uags.length = 0 then 1 else 0)]⟩

/-- Boolean rendering of C strncmp(a, b, n) == 0 on NUL-free strings:
the end of a list plays the role of the terminating NUL, so comparison
stops after n characters or at the first difference or string end. -/
def strncmpEq : List Char → List Char → Nat → Bool
  | _, _, 0 => true
  | [], [], _ + 1 => true
  | [], _ :: _, _ + 1 => false
  | _ :: _, [], _ + 1 => false
  | a :: as, b :: bs, n + 1 => a == b && strncmpEq as bs n

/-- What one mqtt_message_arrived invocation pushes on the command queue
(mqueue_push calls, in order) and hands to mqtt_send_message, in order. -/
structure ArrivedResult where
  pushed : List ModuleEvent
  sent : List String
deriving DecidableEq

/-- The switch (cmd) statement inside mqtt_message_arrived: per command
code, the mqueue_push calls made and the strings handed to
mqtt_send_message.  `json` is the parsed payload (the 'd' case reads its
"account" member), `cmd` the valueint of the "command" item. -/
def command_switch (json : cJSON) (cmd : Int) : ArrivedResult :=
  if cmd = (Char.toNat 'a' : Int) then ⟨[.MQ_ANSWER], []⟩
  else if cmd = (Char.toNat 'b' : Int) then ⟨[.MQ_HANGUP], []⟩
  else if cmd = (Char.toNat 'd' : Int) then
    match cJSON_GetObjectItem json "account" with
    | some item =>
      -- if (item->valuestring && item->valuestring[0] != '\0')
      match valuestring item with
      | some s =>
        if s ≠ "" then ⟨[.MQ_CONNECT s], []⟩ else ⟨[], []⟩
      | none => ⟨[], []⟩
    | none => ⟨[], []⟩  -- "no account is specified for the call"
  else if cmd = (Char.toNat 'u' : Int) then
    ⟨[.MQ_UNMUTE], ["audio unmuted"]⟩
  else if cmd = (Char.toNat 'm' : Int) then
    ⟨[.MQ_MUTE], ["audio muted"]⟩
  else if cmd = (Char.toNat 'h' : Int) then ⟨[.MQ_HOLD], []⟩
  else if cmd = (Char.toNat 'r' : Int) then ⟨[.MQ_RESUME], []⟩
  else if cmd = (Char.toNat 's' : Int) then ⟨[.MQ_CALL_STATUS], []⟩
  else if cmd = (Char.toNat 'p' : Int) then ⟨[.MQ_REGISTRATION_STATUS], []⟩
  else ⟨[], []⟩  -- "message not recognized!"

/-- mqtt_message_arrived from mqtt.c.  `topicName`/`topicLen` are the
transport callback arguments; `json` is the result of cJSON_Parse on the
(NUL-terminated copy of the) payload, `none` on parse failure.  The
result is `none` exactly when the C code dereferences the NULL pointer
returned by cJSON_GetObjectItem(json, "command") on a payload without a
"command" member (the code reads ->valueint with no NULL check).  The
calloc of the payload copy is assumed to succeed (on calloc failure the
C code returns before decoding, pushing and sending nothing). -/
def mqtt_message_arrived (topicName : String) (topicLen : Nat)
    (json : Option cJSON) : Option ArrivedResult :=
  if strncmpEq topicName.data "baresip/read".data topicLen then
    match json with
    | some j =>
      match cJSON_GetObjectItem j "command" with
      | none => none  -- cJSON_GetObjectItem(...)->valueint on NULL: crash
      | some item => some (command_switch j (valueint item))
    | none => some ⟨[], []⟩  -- cJSON_Parse failed: "invalid command!"
  else some ⟨[], []⟩  -- topic comparison failed: message ignored

/-- The init-time results module_init consumes: the return codes of
mqueue_alloc, uag_event_register and MQTTClient_connect
(MQTTCLIENT_SUCCESS is 0). -/
structure InitEnv where
  mqueueAllocErr : Int
  uagRegisterErr : Int
  connectErr : Int
deriving DecidableEq

/-- module_init from mqtt.c, as the return code it hands back to the
module loader (nonzero aborts module load).  The C code returns the
mqueue_alloc error when allocation fails; otherwise `err` is OR-ed with
the uag_event_register result but then overwritten by the
MQTTClient_connect result, which becomes the return value — the
register error is discarded and a failed broker connect is returned. -/
def module_init (env : InitEnv) : Int :=
  if env.mqueueAllocErr ≠ 0 then
    env.mqueueAllocErr
  else
    env.connectErr

/-- Strips `pre` from the front of `s`, returning the rest; `none` when
`s` does not start with `pre`. -/
def stripPre : List Char → List Char → Option (List Char)
  | [], s => some s
  | _ :: _, [] => none
  | p :: ps, c :: cs => if p = c then stripPre ps cs else none

/-- True when `s` is `pre ++ mid ++ post` for some (possibly empty)
`mid`. -/
def framed (pre post s : List Char) : Bool :=
  match stripPre pre s with
  | none => false
  | some rest =>
    match stripPre post.reverse rest.reverse with
    | none => false
    | some _ => true

/-- Modelled from the spec: recogniser for the three outbound JSON
shapes of section 6 — an object with a single "status" string, an object
with a single "event" string, or an object with an "event" string plus a
"success" value that is "true" or "false" — rendered with the spacing
this module prints.  Used to compare the spec's outbound-shape claim
with the strings the code actually builds. -/
def spec_outboundShape (s : String) : Bool :=
  framed ("\x7b \"status\" : \"").data ("\" \x7d").data s.data ||
  framed ("\x7b \"event\" : \"").data ("\" \x7d").data s.data ||
  framed ("\x7b \"event\" : \"").data ("\", \"success\" : \"true\" \x7d").data s.data ||
  framed ("\x7b \"event\" : \"").data ("\", \"success\" : \"false\" \x7d").data s.data

/-- C1: for a message on the control topic whose payload is valid JSON but
has no "command" member, the code does NOT log and discard — it evaluates
cJSON_GetObjectItem(json, "command")->valueint with no NULL check and
dereferences the NULL result (modelled as the `none` outcome): the field
lookup is not total, contradicting the claim. -/
theorem mqtt_missing_command_crash :
    mqtt_message_arrived "baresip/read" 12 (some (.jObject [])) = none := by
  decide

/-- C2: the published "event" value is NOT the command's own event name —
get_event_message ignores its event argument and always emits event
"answer".  Dispatching MQ_CALL_STATUS with no current call publishes
event "answer" / success "false" (not the claimed active_call message),
and MQ_HOLD with a successful hold publishes event "answer" /
success "true" (not "hold"). -/
theorem mqtt_result_event_always_answer :
    (mqueue_handler .MQ_CALL_STATUS ⟨0, 0, 0, false, []⟩).sent
      = ["\x7b \"event\" : \"answer\", \"success\" : \"false\" \x7d"] ∧
    (mqueue_handler .MQ_HOLD ⟨0, 0, 0, true, []⟩).sent
      = ["\x7b \"event\" : \"answer\", \"success\" : \"true\" \x7d"] := by
  decide

/-- C3 counterexample: a message whose topic is not the control topic is
decoded anyway — with topicLen 0 (the Paho convention for a topic with no
embedded NUL bytes) strncmp compares zero bytes and succeeds, so a
payload on topic "other/topic" enqueues MQ_ANSWER, refuting "ignored and
enqueues nothing" for non-control topics. -/
theorem mqtt_topic_mismatch_decoded_counterexample :
    mqtt_message_arrived "other/topic" 0
        (some (.jObject [("command", .jNumber 97)]))
      = some ⟨[.MQ_ANSWER], []⟩ := by
  decide

/-- C3 (amended): a message is decoded iff
strncmp(topicName, "baresip/read", topicLen) == 0, which compares at most
topicLen bytes; when the comparison fails the message is ignored (nothing
enqueued, nothing sent), and when it succeeds decoding depends only on
the payload. -/
theorem mqtt_topic_match_strncmp (t : String) (len : Nat) (j : Option cJSON) :
    (strncmpEq t.data "baresip/read".data len = false →
      mqtt_message_arrived t len j = some ⟨[], []⟩) ∧
    (strncmpEq t.data "baresip/read".data len = true →
      mqtt_message_arrived t len j = mqtt_message_arrived "baresip/read" 12 j) := by
  constructor
  · intro h
    unfold mqtt_message_arrived
    rw [if_neg (by simp [h])]
  · intro h
    have h2 : strncmpEq "baresip/read".data "baresip/read".data 12 = true := by
      decide
    unfold mqtt_message_arrived
    rw [if_pos h, if_pos h2]

/-- C3 witness: a one-byte topic "x" fails the comparison and is ignored
(even with an un-decodable payload), while topicLen 0 on the control
topic decodes exactly as the canonical control-topic call does. -/
theorem mqtt_topic_match_strncmp_witness :
    mqtt_message_arrived "x" 1 (some (.jObject [])) = some ⟨[], []⟩ ∧
    mqtt_message_arrived "baresip/read" 0
        (some (.jObject [("command", .jNumber 97)]))
      = mqtt_message_arrived "baresip/read" 12
        (some (.jObject [("command", .jNumber 97)])) :=
  ⟨(mqtt_topic_match_strncmp "x" 1 (some (.jObject []))).1 (by decide),
   (mqtt_topic_match_strncmp "baresip/read" 0
      (some (.jObject [("command", .jNumber 97)]))).2 (by decide)⟩

/-- C5 counterexample: with queue allocation succeeding and the broker
connect failing with code 5, module_init returns 5 — a nonzero error that
aborts module load — refuting "aborts only when allocation of the command
queue fails". -/
theorem module_init_connect_failure_counterexample :
    module_init ⟨0, 0, 5⟩ = 5 ∧ (5 : Int) ≠ 0 := by
  decide

/-- C5 (amended): module_init aborts with the mqueue_alloc error when
queue allocation fails, and otherwise returns the MQTTClient_connect
result, so a failed broker connection also yields a nonzero return; init
succeeds exactly when both queue allocation and broker connect succeed
(the uag_event_register result is discarded). -/
theorem module_init_error_conditions (env : InitEnv) :
    (module_init env = 0 ↔ env.mqueueAllocErr = 0 ∧ env.connectErr = 0) ∧
    (env.mqueueAllocErr = 0 → module_init env = env.connectErr) := by
  unfold module_init
  by_cases h : env.mqueueAllocErr = 0 <;> simp [h]

/-- C5 witness: with allocation succeeding, module_init returns the
broker-connect code. -/
theorem module_init_error_conditions_witness :
    module_init ⟨0, 0, 7⟩ = 7 :=
  (module_init_error_conditions ⟨0, 0, 7⟩).2 rfl

/-- C10: publish while disconnected yields no publication at all (the
message is dropped, nothing buffered, and the function is total — no
crash); publish while connected produces exactly one publication on the
fixed reply topic "baresip/write" with QoS 1, retained 0, the message as
payload and payload length strlen(message)+1, counting the terminating
NUL byte. -/
theorem mqtt_send_message_contract (msg : String) :
    mqtt_send_message false msg = none ∧
    mqtt_send_message true msg
      = some ⟨"baresip/write", msg, msg.length + 1, 1, 0⟩ :=
  ⟨rfl, rfl⟩

/-- C9 counterexample: with exactly one configured user-agent that is not
registered (uags = [false]), MQ_REGISTRATION_STATUS publishes the
success "true" message although no user-agent is registered — the code
tests list_count(uag_list()), not registration. -/
theorem mqtt_registration_status_unregistered_counterexample :
    (mqueue_handler .MQ_REGISTRATION_STATUS ⟨0, 0, 0, false, [false]⟩).sent
      = [success_true_message] ∧
    [false].any (fun b => b) = false := by
  decide

/-- C9 (amended): dispatching MQ_REGISTRATION_STATUS publishes the
success "true" result exactly when the user-agent list is non-empty and
the success "false" result when it is empty; the agents' registration
state is never consulted (and the event name in both strings is "answer",
by get_event_message). -/
theorem mqtt_registration_status_polarity (env : DispatchEnv) :
    (mqueue_handler .MQ_REGISTRATION_STATUS env).sent
      = [if env.uags.isEmpty then success_false_message
         else success_true_message] := by
  rcases env with ⟨a, h, r, hc, u⟩
  cases u <;> rfl

/-- C4 counterexample: decoding command code 109 ('m') on the control
topic hands the plain text "audio muted" to the publisher, and that
string is none of the three outbound JSON shapes — refuting "no other
text is ever published". -/
theorem mqtt_plain_text_ack_counterexample :
    mqtt_message_arrived "baresip/read" 12
        (some (.jObject [("command", .jNumber 109)]))
      = some ⟨[.MQ_MUTE], ["audio muted"]⟩ ∧
    spec_outboundShape "audio muted" = false := by
  decide

/-- C4 (amended): every string the module hands to the publisher from the
lifecycle handler or the dispatcher is of one of the three outbound JSON
shapes, and every string the decoder hands to the publisher is of one of
those shapes or is one of the two plain-text acknowledgements
"audio muted" / "audio unmuted" that the decoder publishes directly for
the mute / unmute command codes; the publisher forwards payloads
verbatim (and drops them when disconnected). -/
lemma command_switch_sent_all (json : cJSON) (cmd : Int) :
    (command_switch json cmd).sent.all (fun m =>
      spec_outboundShape m || m == "audio muted" || m == "audio unmuted")
      = true := by
  unfold command_switch
  repeat' split
  all_goals rfl

theorem mqtt_outbound_shape :
    (∀ ev st, (ua_event_handler ev st).sent.all spec_outboundShape = true) ∧
    (∀ id env, (mqueue_handler id env).sent.all spec_outboundShape = true) ∧
    (∀ t len j, ((mqtt_message_arrived t len j).map (fun r =>
        r.sent.all (fun m =>
          spec_outboundShape m || m == "audio muted" || m == "audio unmuted"))).getD true
      = true) ∧
    (∀ msg, (mqtt_send_message true msg).map Publication.payload = some msg ∧
      mqtt_send_message false msg = none) := by
  refine ⟨?_, ?_, ?_, ?_⟩
  · intro ev st
    cases ev <;> simp only [ua_event_handler] <;> (repeat' split) <;> rfl
  · intro id env
    cases id <;> simp only [mqueue_handler, get_event_message] <;>
      (repeat' split) <;> rfl
  · intro t len j
    unfold mqtt_message_arrived
    repeat' split
    all_goals simp [command_switch_sent_all]
  · intro msg
    exact ⟨rfl, rfl⟩

/-- C6: on the control topic, a command-code-100 ('d') payload whose
"account" member is a non-empty string enqueues exactly one MQ_CONNECT
carrying a copy of that string, while a payload without an "account"
member, or with an empty "account" string, enqueues nothing (and sends
nothing). -/
theorem mqtt_connect_decode (s : String) (hs : s ≠ "") :
    mqtt_message_arrived "baresip/read" 12
        (some (.jObject [("command", .jNumber 100), ("account", .jString s)]))
      = some ⟨[.MQ_CONNECT s], []⟩ ∧
    mqtt_message_arrived "baresip/read" 12
        (some (.jObject [("command", .jNumber 100)]))
      = some ⟨[], []⟩ ∧
    mqtt_message_arrived "baresip/read" 12
        (some (.jObject [("command", .jNumber 100), ("account", .jString "")]))
      = some ⟨[], []⟩ := by
  refine ⟨?_, by decide, by decide⟩
  have e : mqtt_message_arrived "baresip/read" 12
      (some (.jObject [("command", .jNumber 100), ("account", .jString s)]))
      = some (if s ≠ "" then (⟨[.MQ_CONNECT s], []⟩ : ArrivedResult)
              else ⟨[], []⟩) := rfl
  rw [e, if_pos hs]

/-- C6 witness: the spec's own example account is decoded to a single
Connect command carrying that account string. -/
theorem mqtt_connect_decode_witness :
    mqtt_message_arrived "baresip/read" 12
        (some (.jObject [("command", .jNumber 100),
                         ("account", .jString "sip:bob@example.com")]))
      = some ⟨[.MQ_CONNECT "sip:bob@example.com"], []⟩ :=
  (mqtt_connect_decode "sip:bob@example.com" (by decide)).1

/-- C7: an incoming-call event always selects the signalling user-agent
as current and stops any alert sound; with automatic answer mode nothing
is played and nothing is published; with manual mode and no other call on
the user-agent (the incoming call itself makes the call count 1) the
repeating ring cue is played and the "calling" status is handed to the
publisher; with manual mode and another call present the call-waiting cue
is played and "calling" is not published. -/
theorem mqtt_incoming_call_behavior (am : Answermode) (cc sc : Nat) :
    (ua_event_handler .UA_EVENT_CALL_INCOMING ⟨am, cc, sc⟩).currentSet = true ∧
    (ua_event_handler .UA_EVENT_CALL_INCOMING ⟨am, cc, sc⟩).stoppedPlay = true ∧
    (am = .ANSWERMODE_AUTO →
      (ua_event_handler .UA_EVENT_CALL_INCOMING ⟨am, cc, sc⟩).plays = [] ∧
      (ua_event_handler .UA_EVENT_CALL_INCOMING ⟨am, cc, sc⟩).sent = []) ∧
    (am = .ANSWERMODE_MANUAL → cc ≤ 1 →
      (ua_event_handler .UA_EVENT_CALL_INCOMING ⟨am, cc, sc⟩).plays
        = [⟨"ring.wav", -1⟩] ∧
      (ua_event_handler .UA_EVENT_CALL_INCOMING ⟨am, cc, sc⟩).sent
        = ["\x7b \"status\" : \"calling\" \x7d"]) ∧
    (am = .ANSWERMODE_MANUAL → 1 < cc →
      (ua_event_handler .UA_EVENT_CALL_INCOMING ⟨am, cc, sc⟩).plays
        = [⟨"callwaiting.wav", 3⟩] ∧
      (ua_event_handler .UA_EVENT_CALL_INCOMING ⟨am, cc, sc⟩).sent = []) := by
  refine ⟨?_, ?_, ?_, ?_, ?_⟩
  · cases am <;> by_cases hcc : 1 < cc <;> simp [ua_event_handler, hcc]
  · cases am <;> by_cases hcc : 1 < cc <;> simp [ua_event_handler, hcc]
  · intro ha
    subst ha
    simp [ua_event_handler]
  · intro ha hle
    subst ha
    have hcc : ¬ 1 < cc := by omega
    simp [ua_event_handler, hcc]
  · intro ha hlt
    subst ha
    simp [ua_event_handler, hlt]

/-- C7 witness: manual answer mode with only the incoming call plays the
repeating ring cue and hands the "calling" status to the publisher. -/
theorem mqtt_incoming_call_behavior_witness :
    (ua_event_handler .UA_EVENT_CALL_INCOMING
        ⟨.ANSWERMODE_MANUAL, 1, 0⟩).plays = [⟨"ring.wav", -1⟩] ∧
    (ua_event_handler .UA_EVENT_CALL_INCOMING
        ⟨.ANSWERMODE_MANUAL, 1, 0⟩).sent
      = ["\x7b \"status\" : \"calling\" \x7d"] :=
  (mqtt_incoming_call_behavior .ANSWERMODE_MANUAL 1 0).2.2.2.1 rfl (by decide)

/-- C8: a closed-call event hands exactly the "closed" status to the
publisher and stops the current alert sound; a zero SIP status code plays
no tone, 404 plays the not-found tone once, 486 the busy tone once, 487
no tone, and any other nonzero code the generic error tone once. -/
theorem mqtt_call_closed_tones (am : Answermode) (cc sc : Nat) :
    (ua_event_handler .UA_EVENT_CALL_CLOSED ⟨am, cc, sc⟩).sent
      = ["\x7b \"status\" : \"closed\" \x7d"] ∧
    (ua_event_handler .UA_EVENT_CALL_CLOSED ⟨am, cc, sc⟩).stoppedPlay = true ∧
    (sc = 0 →
      (ua_event_handler .UA_EVENT_CALL_CLOSED ⟨am, cc, sc⟩).plays = []) ∧
    (sc = 404 →
      (ua_event_handler .UA_EVENT_CALL_CLOSED ⟨am, cc, sc⟩).plays
        = [⟨"notfound.wav", 1⟩]) ∧
    (sc = 486 →
      (ua_event_handler .UA_EVENT_CALL_CLOSED ⟨am, cc, sc⟩).plays
        = [⟨"busy.wav", 1⟩]) ∧
    (sc = 487 →
      (ua_event_handler .UA_EVENT_CALL_CLOSED ⟨am, cc, sc⟩).plays = []) ∧
    (sc ≠ 0 → sc ≠ 404 → sc ≠ 486 → sc ≠ 487 →
      (ua_event_handler .UA_EVENT_CALL_CLOSED ⟨am, cc, sc⟩).plays
        = [⟨"error.wav", 1⟩]) := by
  refine ⟨rfl, rfl, ?_, ?_, ?_, ?_, ?_⟩
  · intro h0
    subst h0
    rfl
  · intro h404
    subst h404
    rfl
  · intro h486
    subst h486
    rfl
  · intro h487
    subst h487
    rfl
  · intro h0 h404 h486 h487
    simp [ua_event_handler, translate_errorcode, h0, h404, h486, h487]

/-- C8 witness: a closed call with SIP status 500 publishes "closed" and
plays the generic error tone exactly once. -/
theorem mqtt_call_closed_tones_witness :
    (ua_event_handler .UA_EVENT_CALL_CLOSED
        ⟨.ANSWERMODE_AUTO, 0, 500⟩).plays = [⟨"error.wav", 1⟩] :=
  (mqtt_call_closed_tones .ANSWERMODE_AUTO 0 500).2.2.2.2.2.2
    (by decide) (by decide) (by decide) (by decide)
